import Mathlib

/-!
# SDN-v2 Zero-Trust control plane: verification of spec claims

Shallow embedding of the parts of the SDN-v2 repository that the frozen
claims are about, together with theorems settling each claim.

Conventions of the embedding:
* Python `dict` maps keyed by strings become association lists
  `List (String × α)`; insertion overwrites the first binding, lookup takes
  the first binding, matching Python dict semantics (one binding per key).
* Python `time.time()` / `datetime.utcnow()` values are abstract integer
  timestamps passed in as a `now : Int` parameter.
* Python floats used in rate computations become `ℚ` (the claims are about
  threshold comparisons, not rounding).
* Fallible operations return their Python truth value (`Bool`) next to the
  updated state.
-/

namespace SDN

/-! ## Trust scorer (src/trust_evaluator/trust_scorer.py) -/

/-- Clipping `max(0, min(100, x))` applied by `adjust_trust_score` and
`set_trust_score`. -/
def clip (x : Int) : Int := max 0 (min 100 x)

/-- One row of the `devices` table of the identity database
(src/identity_manager/identity_database.py, `_init_database`).  Only the
columns the claims touch are modelled; `trust_score` is nullable. -/
structure DeviceRow where
  deviceId : String
  macAddress : String
  certificatePath : Option String
  keyPath : Option String
  deviceType : Option String
  deviceInfo : Option String
  status : String
  firstSeen : Int
  lastSeen : Int
  trustScore : Option Int
  deriving Repr, DecidableEq

/-- The identity database: the `devices` table plus the
`trust_score_history` table (rows appended in insertion order). -/
structure IdentityStore where
  devices : List DeviceRow
  trustHistory : List (String × Int × String)
  deriving Repr, DecidableEq

/-- Source `IdentityDatabase.get_device`: first row whose `device_id` matches. -/
def getDevice (db : IdentityStore) (deviceId : String) : Option DeviceRow :=
  db.devices.find? (fun r => r.deviceId = deviceId)

/-- Source `IdentityDatabase.get_trust_score`: the row's `trust_score` when the row
exists and the column is non-null, otherwise `None`. -/
def getTrustScoreDB (db : IdentityStore) (deviceId : String) : Option Int :=
  match getDevice db deviceId with
  | some r => r.trustScore
  | none => none

/-- Source `IdentityDatabase.save_trust_score`: `UPDATE devices SET trust_score`
(affects only existing rows) and an `INSERT` into `trust_score_history`. -/
def saveTrustScoreDB (db : IdentityStore) (deviceId : String) (score : Int)
    (reason : String) : IdentityStore :=
  { devices := db.devices.map (fun r =>
      if r.deviceId = deviceId then { r with trustScore := some score } else r),
    trustHistory := db.trustHistory ++ [(deviceId, score, reason)] }

/-- An in-memory trust-history entry `(timestamp, score, reason)`. -/
structure HistEntry where
  timestamp : Int
  score : Int
  reason : String
  deriving Repr, DecidableEq

/-- Source `TrustScorer._record_score_change`: append the entry, then keep only the
last 1000 entries. -/
def recordScoreChange (h : List HistEntry) (e : HistEntry) : List HistEntry :=
  let h' := h ++ [e]
  if h'.length > 1000 then h'.drop (h'.length - 1000) else h'

/-- In-memory state of `TrustScorer` (`device_scores` holds the integer
score per device; `score_history` the per-device history list). -/
structure TrustScorer where
  initialScore : Int
  deviceScores : List (String × Int)
  scoreHistory : List (String × List HistEntry)
  deriving Repr, DecidableEq

/-- Association-list lookup (Python `dict` access, first binding wins). -/
def alistGet {α : Type} (l : List (String × α)) (k : String) : Option α :=
  (l.find? (fun p => p.1 = k)).map Prod.snd

/-- Association-list overwrite (Python `dict` assignment). -/
def alistSet {α : Type} (l : List (String × α)) (k : String) (v : α) :
    List (String × α) :=
  if (l.find? (fun p => p.1 = k)).isSome then
    l.map (fun p => if p.1 = k then (k, v) else p)
  else
    l ++ [(k, v)]

/-- Source `TrustScorer.get_trust_score`. -/
def getTrustScore (s : TrustScorer) (deviceId : String) : Option Int :=
  alistGet s.deviceScores deviceId

/-- Per-device history (empty when the device has no entry yet). -/
def historyOf (s : TrustScorer) (deviceId : String) : List HistEntry :=
  (alistGet s.scoreHistory deviceId).getD []

/-- Source `TrustScorer.initialize_device` (called with `initial_score=None`): use
the persisted score when the database has one, else `self.initial_score`;
store it, record an `"Initialized"` history entry, and persist. -/
def initializeDevice (s : TrustScorer) (db : IdentityStore) (deviceId : String)
    (now : Int) : TrustScorer × IdentityStore :=
  let score :=
    match getTrustScoreDB db deviceId with
    | some dbScore => dbScore
    | none => s.initialScore
  let s' : TrustScorer :=
    { s with
      deviceScores := alistSet s.deviceScores deviceId score,
      scoreHistory := alistSet s.scoreHistory deviceId
        (recordScoreChange (historyOf s deviceId) ⟨now, score, "Initialized"⟩) }
  (s', saveTrustScoreDB db deviceId score "Initialized")

/-- A trust-score update: `adjust_trust_score` or `set_trust_score`. -/
inductive TrustUpdate where
  | adjust (delta : Int)
  | set (score : Int)
  deriving Repr, DecidableEq

/-- Result of one trust-score update: the new in-memory state, the new
database state, and the `(old, new)` pair passed to change listeners. -/
structure UpdateResult where
  scorer : TrustScorer
  db : IdentityStore
  oldScore : Int
  newScore : Int
  deriving Repr, DecidableEq

/-- Source `TrustScorer.adjust_trust_score` / `set_trust_score`: auto-initialize a
missing device, clip the result to `[0, 100]`, store it, record history,
persist to the database, and report `(old, new)` for the change listeners.
(`current` is always present after the initialization step, so the `getD 0`
default is never consulted.) -/
def applyTrustUpdate (s : TrustScorer) (db : IdentityStore) (deviceId : String)
    (u : TrustUpdate) (reason : String) (now : Int) : UpdateResult :=
  let stepInit :=
    if (getTrustScore s deviceId).isSome then (s, db)
    else initializeDevice s db deviceId now
  let s1 := stepInit.1
  let db1 := stepInit.2
  let current := (getTrustScore s1 deviceId).getD 0
  let newScore :=
    match u with
    | .adjust delta => clip (current + delta)
    | .set score => clip score
  let s2 : TrustScorer :=
    { s1 with
      deviceScores := alistSet s1.deviceScores deviceId newScore,
      scoreHistory := alistSet s1.scoreHistory deviceId
        (recordScoreChange (historyOf s1 deviceId) ⟨now, newScore, reason⟩) }
  ⟨s2, saveTrustScoreDB db1 deviceId newScore reason, current, newScore⟩

/-! ## Policy adapter (src/trust_evaluator/policy_adapter.py) -/

/-- Source `PolicyAdapter.adapt_policy_for_device`: map the device's current trust
score to the enforcement action it returns (`None` when no score exists).
The SDN rule-installation call is the external Rule Installer collaborator;
the embedding models the action selected and returned. -/
def adaptPolicyForDevice (scores : List (String × Int)) (deviceId : String) :
    Option String :=
  match alistGet scores deviceId with
  | none => none
  | some trustScore =>
    if trustScore < 30 then some "quarantine"
    else if trustScore < 50 then some "deny"
    else if trustScore < 70 then some "redirect"
    else some "allow"

/-- The threshold loop of `PolicyAdapter.on_trust_score_change`: the last
threshold in `[30, 50, 70]` that the score reaches, `None` below 30. -/
def thresholdOf (score : Int) : Option Int :=
  [30, 50, 70].foldl (fun acc t => if score ≥ t then some t else acc) none

/-- Source `PolicyAdapter.on_trust_score_change`: adapt the policy when the
threshold changed or the score moved by at least 10 points; otherwise do
nothing (`none` = no enforcement action applied). -/
def onTrustScoreChange (scores : List (String × Int)) (deviceId : String)
    (oldScore newScore : Int) : Option String :=
  if thresholdOf oldScore ≠ thresholdOf newScore then
    adaptPolicyForDevice scores deviceId
  else if (oldScore - newScore).natAbs ≥ 10 then
    adaptPolicyForDevice scores deviceId
  else
    none

/-- Spec-side trust bucket (spec §4.8: `≥70 trusted, 50–69 monitored,
30–49 suspicious, <30 untrusted`), written from the spec's words. -/
def specBucket (score : Int) : String :=
  if score ≥ 70 then "trusted"
  else if score ≥ 50 then "monitored"
  else if score ≥ 30 then "suspicious"
  else "untrusted"

/-- Spec-side action mandated for a score (claim C2's wording): quarantine
below 30, deny in `[30, 50)`, redirect in `[50, 70)`, allow at `≥ 70`. -/
def specActionFor (score : Int) : String :=
  if score < 30 then "quarantine"
  else if score < 50 then "deny"
  else if score < 70 then "redirect"
  else "allow"

/-! ## Certificate manager (src/identity_manager/certificate_manager.py) -/

/-- A device certificate as relevant to verification: whether its signature
chains to the framework CA, and its validity window (integer timestamps). -/
structure DeviceCert where
  signedByCA : Bool
  notValidBefore : Int
  notValidAfter : Int
  deriving Repr, DecidableEq

/-- Source `CertificateManager.generate_device_certificate`: signed by the CA key,
valid from `now` for `validity_days` days. -/
def generateDeviceCertificate (now : Int) (validityDays : Int) : DeviceCert :=
  { signedByCA := true,
    notValidBefore := now,
    notValidAfter := now + validityDays * 86400 }

/-- Source `CertificateManager.verify_certificate`.  A `cert_ref` that fails to
load (missing file, parse error) is `none` and yields `False` via the
`except` handler.  The code checks only the validity window — the comment in
the source reads "In production, use proper certificate validation.  For
now, check if certificate is not expired" — and never consults the CA
signature. -/
def verifyCertificate (cert : Option DeviceCert) (now : Int) : Bool :=
  match cert with
  | Option.none => false
  | some c =>
    if c.notValidAfter < now then false
    else if c.notValidBefore > now then false
    else true

/-- Verification as the spec words it (spec §4.2 / claim C3): true iff the
signature chains to the framework CA and `not-before ≤ now < not-after`. -/
def specVerifyCertificate (cert : Option DeviceCert) (now : Int) : Bool :=
  match cert with
  | Option.none => false
  | some c =>
    c.signedByCA && decide (c.notValidBefore ≤ now) && decide (now < c.notValidAfter)

/-! ## Identity database `add_device`
(src/identity_manager/identity_database.py) -/

/-- Source `IdentityDatabase.add_device`.  Preserves `first_seen` and an existing
non-null `trust_score` for a re-insert of the same `device_id` (default 70
otherwise).  The row is written with `INSERT OR REPLACE`; with
`device_id PRIMARY KEY` and `mac_address UNIQUE`, SQLite's REPLACE conflict
resolution deletes every existing row that collides on either column and
then inserts the new row.  `status` is not in the INSERT column list, so the
new row gets the column default `'active'`.  Returns `True` on this success
path (`False` arises only from I/O exceptions, not modelled). -/
def addDevice (db : IdentityStore) (deviceId macAddress : String)
    (certificatePath keyPath deviceType deviceInfo : Option String)
    (now : Int) : IdentityStore × Bool :=
  let existing := getDevice db deviceId
  let firstSeen :=
    match existing with
    | some r => r.firstSeen
    | none => now
  let trustScore :=
    match existing with
    | some r => r.trustScore.getD 70
    | none => 70
  let newRow : DeviceRow :=
    { deviceId := deviceId, macAddress := macAddress,
      certificatePath := certificatePath, keyPath := keyPath,
      deviceType := deviceType, deviceInfo := deviceInfo,
      status := "active",
      firstSeen := firstSeen, lastSeen := now, trustScore := some trustScore }
  let remaining := db.devices.filter
    (fun r => r.deviceId ≠ deviceId ∧ r.macAddress ≠ macAddress)
  ({ db with devices := remaining ++ [newRow] }, true)

/-! ## Pending admission queue (src/network_monitor/pending_devices.py) -/

/-- One row of the `pending_devices` table. -/
structure PendingRow where
  macAddress : String
  deviceId : String
  detectedAt : Int
  status : String
  approvedAt : Option Int
  rejectedAt : Option Int
  onboardedAt : Option Int
  adminNotes : Option String
  deriving Repr, DecidableEq

/-- The pending-devices database: `pending_devices` rows plus the
`device_history` audit table `(mac, device_id, action, admin_notes)`. -/
structure PendingDB where
  rows : List PendingRow
  history : List (String × Option String × String × Option String)
  deriving Repr, DecidableEq

/-- Source `PendingDeviceManager.approve_device`: `UPDATE ... WHERE mac_address = ?
AND status = 'pending'`; when no row matched (`rowcount == 0`) nothing is
committed and `False` is returned, otherwise the matched row is approved, an
audit row is appended and `True` is returned. -/
def approveDevice (db : PendingDB) (mac : String) (adminNotes : Option String)
    (now : Int) : PendingDB × Bool :=
  let matched := db.rows.filter (fun r => r.macAddress = mac ∧ r.status = "pending")
  if matched.length = 0 then (db, false)
  else
    let rows' := db.rows.map (fun r =>
      if r.macAddress = mac ∧ r.status = "pending" then
        { r with status := "approved", approvedAt := some now, adminNotes := adminNotes }
      else r)
    let deviceId := (rows'.find? (fun r => r.macAddress = mac)).map PendingRow.deviceId
    ({ rows := rows',
       history := db.history ++ [(mac, deviceId, "approved", adminNotes)] }, true)

/-- Source `PendingDeviceManager.reject_device`: same guard as approval, with the
`rejected` status and timestamp. -/
def rejectDevice (db : PendingDB) (mac : String) (adminNotes : Option String)
    (now : Int) : PendingDB × Bool :=
  let matched := db.rows.filter (fun r => r.macAddress = mac ∧ r.status = "pending")
  if matched.length = 0 then (db, false)
  else
    let rows' := db.rows.map (fun r =>
      if r.macAddress = mac ∧ r.status = "pending" then
        { r with status := "rejected", rejectedAt := some now, adminNotes := adminNotes }
      else r)
    let deviceId := (rows'.find? (fun r => r.macAddress = mac)).map PendingRow.deviceId
    ({ rows := rows',
       history := db.history ++ [(mac, deviceId, "rejected", adminNotes)] }, true)

/-- Source `PendingDeviceManager.mark_onboarded`: `UPDATE ... WHERE mac_address = ?`
with no guard on the current status, and `True` returned unconditionally. -/
def markOnboarded (db : PendingDB) (mac : String) (now : Int) : PendingDB × Bool :=
  ({ db with rows := db.rows.map (fun r =>
      if r.macAddress = mac then
        { r with status := "onboarded", onboardedAt := some now }
      else r) }, true)

/-! ## Session token authentication (src/controller.py) -/

/-- One value of the `device_tokens` map: the last issued token and the last
activity timestamp. -/
structure TokenRecord where
  token : String
  lastActivity : Int
  deriving Repr, DecidableEq

/-- Constant `SESSION_TIMEOUT = 300` (controller.py line 79). -/
def SESSION_TIMEOUT : Int := 300

/-- Association-list removal (Python `dict.pop`). -/
def alistErase {α : Type} (l : List (String × α)) (k : String) :
    List (String × α) :=
  l.filter (fun p => p.1 ≠ k)

/-- The token-issuing step of `get_token` for an authorized device:
`device_tokens[device_id] = {"token": token, "last_activity": now}`
(overwrites any previous record, so the stored token is the last issued). -/
def issueToken (st : List (String × TokenRecord)) (deviceId token : String)
    (now : Int) : List (String × TokenRecord) :=
  alistSet st deviceId ⟨token, now⟩

/-- The `/auth` endpoint (`auth`, controller.py 619–648): missing fields are
rejected up front; then the record must exist and the token must match; an
expired record is popped; success refreshes `last_activity`. -/
def authenticate (st : List (String × TokenRecord)) (deviceId token : String)
    (now : Int) : List (String × TokenRecord) × Bool :=
  if deviceId = "" ∨ token = "" then (st, false)
  else
    match alistGet st deviceId with
    | Option.none => (st, false)
    | some record =>
      if record.token ≠ token then (st, false)
      else if now - record.lastActivity > SESSION_TIMEOUT then
        (alistErase st deviceId, false)
      else (alistSet st deviceId ⟨record.token, now⟩, true)

/-- Well-formedness maintained by `get_token`: every record is keyed by a
nonempty device id and stores a nonempty (UUID) token. -/
def WFTokens (st : List (String × TokenRecord)) : Prop :=
  ∀ p ∈ st, p.1 ≠ "" ∧ p.2.token ≠ ""

/-! ## Traffic orchestrator threat assessment
(src/ryu_controller/traffic_orchestrator.py) -/

/-- The threat-intelligence part of `_assess_threat_level`: `none` when no
(truthy) record was supplied; otherwise the record's `severity` field
(`.get('severity', 'low')`, so a record without the key counts as low)
mapped through the `high`/`medium`/`low` chain, any other value leaving the
level at `none`. -/
def tiBaseLevel (ti : Option (Option String)) : String :=
  match ti with
  | Option.none => "none"
  | some sevField =>
    let severity := sevField.getD "low"
    if severity = "high" then "high"
    else if severity = "medium" then "medium"
    else if severity = "low" then "low"
    else "none"

/-- Source `TrafficOrchestrator._assess_threat_level`, with the device's recent
alerts abstracted to their severity strings. -/
def assessThreatLevel (ti : Option (Option String))
    (alertSeverities : List String) : String :=
  let threatLevel := tiBaseLevel ti
  if alertSeverities.length ≠ 0 then
    let highCount := (alertSeverities.filter (fun a => a = "high")).length
    let mediumCount := (alertSeverities.filter (fun a => a = "medium")).length
    if highCount > 0 then
      if threatLevel ≠ "critical" then "critical" else "high"
    else if mediumCount ≥ 2 then
      if threatLevel ≠ "high" ∧ threatLevel ≠ "critical" then "high" else threatLevel
    else if mediumCount > 0 then
      if threatLevel = "none" then "medium" else threatLevel
    else threatLevel
  else threatLevel

/-- Rank of a threat level in the order
`none < low < medium < high < critical` (claim C7). -/
def threatRank (level : String) : Nat :=
  if level = "critical" then 4
  else if level = "high" then 3
  else if level = "medium" then 2
  else if level = "low" then 1
  else 0

/-- Maximum of two threat levels under `threatRank`. -/
def maxLevel (a b : String) : String :=
  if threatRank b ≤ threatRank a then a else b

/-! ## Anomaly detector (src/heuristic_analyst/anomaly_detector.py) -/

/-- The flow statistics consulted by `detect_anomalies` (each via
`.get(key, 0)`, so a missing key reads as 0). -/
structure FlowStats where
  packetsPerSecond : Option ℚ
  bytesPerSecond : Option ℚ
  uniqueDestinations : Option Int
  uniquePorts : Option Int
  deriving Repr, DecidableEq

/-- The baseline fields consulted: rates default to 1.0 / 1000.0 when the
key is missing; of the destination/port maps only the key count is used. -/
structure Baseline where
  packetsPerSecond : Option ℚ
  bytesPerSecond : Option ℚ
  commonDestinations : List String
  commonPorts : List String
  deriving Repr, DecidableEq

/-- One matched signal appended to the `anomalies` list (its human-readable
`indicator` text is not modelled). -/
structure AnomalySignal where
  type : String
  severity : String
  deriving Repr, DecidableEq

/-- The detection result dictionary. -/
structure DetectionResult where
  isAnomaly : Bool
  anomalyType : Option String
  severity : Option String
  severityScore : Int
  anomalies : List AnomalySignal
  deriving Repr, DecidableEq

/-- Overall severity from the total score:
`≥70 high, ≥40 medium, ≥20 low, else None`. -/
def overallSeverity (score : Int) : Option String :=
  if score ≥ 70 then some "high"
  else if score ≥ 40 then some "medium"
  else if score ≥ 20 then some "low"
  else Option.none

/-- The packet-rate check of the with-baseline path: ratio over baseline
pps (`.get('packets_per_second', 1.0)`), thresholds 10× / 5× / 2×. -/
def ppsSignalB (baseline : Baseline) (stats : FlowStats) :
    Option (AnomalySignal × Int) :=
  let currentPps := stats.packetsPerSecond.getD 0
  let baselinePps := baseline.packetsPerSecond.getD 1
  if baselinePps > 0 then
    if currentPps / baselinePps > 10 then some (⟨"dos", "high"⟩, 50)
    else if currentPps / baselinePps > 5 then some (⟨"dos", "high"⟩, 30)
    else if currentPps / baselinePps > 2 then some (⟨"dos", "medium"⟩, 15)
    else Option.none
  else Option.none

/-- The byte-rate check of the with-baseline path (threshold 10×). -/
def bpsSignalB (baseline : Baseline) (stats : FlowStats) :
    Option (AnomalySignal × Int) :=
  let currentBps := stats.bytesPerSecond.getD 0
  let baselineBps := baseline.bytesPerSecond.getD 1000
  if baselineBps > 0 then
    if currentBps / baselineBps > 10 then some (⟨"volume_attack", "high"⟩, 40)
    else Option.none
  else Option.none

/-- The destination-scanning check of the with-baseline path. -/
def destSignalB (baseline : Baseline) (stats : FlowStats) :
    Option (AnomalySignal × Int) :=
  let uniqueDestinations := stats.uniqueDestinations.getD 0
  if uniqueDestinations > (baseline.commonDestinations.length : Int) * 5 ∧
      uniqueDestinations > 20 then
    some (⟨"scanning", "medium"⟩, 25)
  else Option.none

/-- The port-scanning check of the with-baseline path. -/
def portSignalB (baseline : Baseline) (stats : FlowStats) :
    Option (AnomalySignal × Int) :=
  let uniquePorts := stats.uniquePorts.getD 0
  if uniquePorts > (baseline.commonPorts.length : Int) * 3 ∧
      uniquePorts > 10 then
    some (⟨"port_scanning", "medium"⟩, 20)
  else Option.none

/-- The with-baseline path of `AnomalyDetector.detect_anomalies`: the four
threshold signals in source order, the summed severity score, and the type
collapse `dos/volume_attack → dos`, `scanning/port_scanning → scanning`
(the final `else 'anomaly'` fallback mirrors the source). -/
def detectWithBaseline (baseline : Baseline) (stats : FlowStats) :
    DetectionResult :=
  let signals := [ppsSignalB baseline stats, bpsSignalB baseline stats,
    destSignalB baseline stats, portSignalB baseline stats].filterMap id
  let anomalies := signals.map Prod.fst
  let severityScore := (signals.map Prod.snd).sum
  let types := anomalies.map AnomalySignal.type
  let anomalyType :=
    if anomalies.length ≠ 0 then
      if "dos" ∈ types ∨ "volume_attack" ∈ types then some "dos"
      else if "scanning" ∈ types ∨ "port_scanning" ∈ types then
        some "scanning"
      else some "anomaly"
    else Option.none
  ⟨anomalies.length ≠ 0, anomalyType, overallSeverity severityScore,
    severityScore, anomalies⟩

/-- Absolute packet-rate check of `_detect_without_baseline`. -/
def ppsSignalA (stats : FlowStats) : Option (AnomalySignal × Int) :=
  let pps := stats.packetsPerSecond.getD 0
  if pps > 10000 then some (⟨"dos", "high"⟩, 50)
  else if pps > 5000 then some (⟨"dos", "high"⟩, 30)
  else Option.none

/-- Absolute byte-rate check of `_detect_without_baseline`. -/
def bpsSignalA (stats : FlowStats) : Option (AnomalySignal × Int) :=
  let bps := stats.bytesPerSecond.getD 0
  if bps > 10000000 then some (⟨"volume_attack", "high"⟩, 40)
  else Option.none

/-- Absolute destination-scanning check of `_detect_without_baseline`. -/
def destSignalA (stats : FlowStats) : Option (AnomalySignal × Int) :=
  let uniqueDestinations := stats.uniqueDestinations.getD 0
  if uniqueDestinations > 50 then some (⟨"scanning", "medium"⟩, 25)
  else Option.none

/-- Absolute port-scanning check of `_detect_without_baseline`. -/
def portSignalA (stats : FlowStats) : Option (AnomalySignal × Int) :=
  let uniquePorts := stats.uniquePorts.getD 0
  if uniquePorts > 20 then some (⟨"port_scanning", "medium"⟩, 20)
  else Option.none

/-- Source `AnomalyDetector._detect_without_baseline`: absolute thresholds, and the
anomaly type is `anomalies[0]['type']` (the first matched signal). -/
def detectWithoutBaseline (stats : FlowStats) : DetectionResult :=
  let signals := [ppsSignalA stats, bpsSignalA stats,
    destSignalA stats, portSignalA stats].filterMap id
  let anomalies := signals.map Prod.fst
  let severityScore := (signals.map Prod.snd).sum
  let anomalyType := anomalies.head?.map AnomalySignal.type
  ⟨anomalies.length ≠ 0, anomalyType, overallSeverity severityScore,
    severityScore, anomalies⟩

/-- Source `AnomalyDetector.detect_anomalies` entry: falsy `current_stats` yields
the empty result, a device without a baseline uses the absolute-threshold
path. -/
def detectAnomalies (baselines : List (String × Baseline)) (deviceId : String)
    (stats : Option FlowStats) : DetectionResult :=
  match stats with
  | Option.none => ⟨false, Option.none, Option.none, 0, []⟩
  | some st =>
    match alistGet baselines deviceId with
    | Option.none => detectWithoutBaseline st
    | some b => detectWithBaseline b st

/-- The highest-precedence type of a list of matched signal types under the
claimed precedence `dos > volume_attack > scanning > port_scanning >
anomaly` (claim C8's wording). -/
def highestPrecType (types : List String) : Option String :=
  if "dos" ∈ types then some "dos"
  else if "volume_attack" ∈ types then some "volume_attack"
  else if "scanning" ∈ types then some "scanning"
  else if "port_scanning" ∈ types then some "port_scanning"
  else if "anomaly" ∈ types then some "anomaly"
  else Option.none

/-! ## Helper lemmas about the association-list operations -/

theorem alistGet_append_single {α : Type} (l : List (String × α)) (k : String)
    (v : α) (h : l.find? (fun p => p.1 = k) = none) :
    alistGet (l ++ [(k, v)]) k = some v := by
  induction l with
  | nil => simp [alistGet]
  | cons p t ih =>
    by_cases hp : p.1 = k
    · simp_all [alistGet, List.find?_cons, hp]
    · simp_all [alistGet, List.find?_cons, hp]
      exact ⟨k, Or.inr ⟨h, rfl⟩⟩

theorem alistGet_map_overwrite {α : Type} (l : List (String × α)) (k : String)
    (v : α) (h : (l.find? (fun p => p.1 = k)).isSome) :
    alistGet (l.map (fun p => if p.1 = k then (k, v) else p)) k = some v := by
  induction l with
  | nil => simp at h
  | cons p t ih =>
    by_cases hp : p.1 = k
    · simp_all [alistGet, List.find?_cons, hp]
    · simp_all [alistGet, List.find?_cons, hp]
      obtain ⟨x, hx⟩ := h
      exact ih x hx

theorem alistGet_set_self {α : Type} (l : List (String × α)) (k : String)
    (v : α) : alistGet (alistSet l k v) k = some v := by
  unfold alistSet
  by_cases h : (l.find? (fun p => p.1 = k)).isSome
  · rw [if_pos h]
    exact alistGet_map_overwrite l k v h
  · rw [if_neg h]
    exact alistGet_append_single l k v (by
      cases hf : l.find? (fun p => p.1 = k) with
      | none => rfl
      | some p => rw [hf] at h; simp at h)

theorem alistGet_mem {α : Type} {l : List (String × α)} {k : String} {v : α}
    (h : alistGet l k = some v) : (k, v) ∈ l := by
  unfold alistGet at h
  cases hf : l.find? (fun p => p.1 = k) with
  | none => rw [hf] at h; simp at h
  | some p =>
    rw [hf] at h
    simp only [Option.map] at h
    injection h with h
    have hm := List.mem_of_find?_eq_some hf
    have hp : p.1 = k := by simpa using List.find?_some hf
    have : p = (k, v) := by
      cases p
      simp_all
    rw [this] at hm
    exact hm

theorem alistGet_erase_self {α : Type} (l : List (String × α)) (k : String) :
    alistGet (alistErase l k) k = none := by
  unfold alistGet alistErase
  rw [List.find?_eq_none.mpr]
  · rfl
  · intro p hp
    have := List.of_mem_filter hp
    simp only [decide_eq_true_eq] at this ⊢
    exact this

theorem suffix_single_getLast {α : Type} {l : List α} {e : α}
    (h : [e] <:+ l) : l.getLast? = some e := by
  obtain ⟨t, rfl⟩ := h
  exact List.getLast?_concat t

theorem recordScoreChange_suffix_single (h : List HistEntry) (e : HistEntry) :
    [e] <:+ recordScoreChange h e := by
  unfold recordScoreChange
  by_cases hl : (h ++ [e]).length > 1000
  · rw [if_pos hl]
    have hd : (h ++ [e]).length - 1000 ≤ h.length := by
      simp only [List.length_append, List.length_cons, List.length_nil]
      omega
    rw [List.drop_append_of_le_length hd]
    exact List.suffix_append _ _
  · rw [if_neg hl]
    exact List.suffix_append h [e]

theorem recordScoreChange_suffix_pair (h : List HistEntry) (a e : HistEntry)
    (ha : [a] <:+ h) : [a, e] <:+ recordScoreChange h e := by
  obtain ⟨t, rfl⟩ := ha
  unfold recordScoreChange
  have happ : (t ++ [a]) ++ [e] = t ++ [a, e] := by simp
  rw [happ]
  by_cases hl : (t ++ [a, e]).length > 1000
  · rw [if_pos hl]
    have hd : (t ++ [a, e]).length - 1000 ≤ t.length := by
      simp only [List.length_append, List.length_cons, List.length_nil]
      omega
    rw [List.drop_append_of_le_length hd]
    exact List.suffix_append _ _
  · rw [if_neg hl]
    exact List.suffix_append t [a, e]

/-! ## Claim C3: certificate verification -/

/-- C3 counterexample: a well-formed certificate whose signature does *not*
chain to the framework CA, verified in the middle of its validity window.
The claim says `verify_certificate` must return false here; the code
returns true, because it never checks the signature chain. -/
theorem certificate_verify_counterexample :
    verifyCertificate (some ⟨false, 0, 100⟩) 50 = true ∧
    specVerifyCertificate (some ⟨false, 0, 100⟩) 50 = false :=
  ⟨rfl, rfl⟩

/-- C3 amended: `verify_certificate(cert_ref)` returns true iff the
certificate loads and the current time lies within its validity window
(inclusive at `not-after`); the CA signature chain is never consulted, so
an unexpired certificate not signed by the CA also verifies true. -/
theorem certificate_verify_characterization (cert : Option DeviceCert)
    (now : Int) :
    verifyCertificate cert now = true ↔
      ∃ c, cert = some c ∧ c.notValidBefore ≤ now ∧ now ≤ c.notValidAfter := by
  cases cert with
  | none =>
    simp [verifyCertificate]
  | some c =>
    simp only [verifyCertificate]
    constructor
    · intro h
      refine ⟨c, rfl, ?_, ?_⟩
      all_goals split_ifs at h
      all_goals omega
    · rintro ⟨c', hc', h1, h2⟩
      cases hc'
      split_ifs <;> first | rfl | omega

/-! ## Claim C4: `add_device` under MAC conflict -/

/-- C4 counterexample: the store holds device `d1`, *active*, bound to MAC
`m`.  `add_device("d2", "m")` is claimed to fail with a conflict and leave
`d1`'s row unchanged; instead the `INSERT OR REPLACE` deletes `d1`'s row
and the call reports success. -/
theorem add_device_counterexample :
    let db0 : IdentityStore :=
      ⟨[⟨"d1", "m", Option.none, Option.none, Option.none, Option.none,
         "active", 5, 5, some 80⟩], []⟩
    let out := addDevice db0 "d2" "m" Option.none Option.none Option.none
      Option.none 10
    (getDevice db0 "d1").map DeviceRow.macAddress = some "m" ∧
    (getDevice db0 "d1").map DeviceRow.status = some "active" ∧
    out.2 = true ∧
    getDevice out.1 "d1" = Option.none :=
  ⟨rfl, rfl, rfl, rfl⟩

/-- C4 amended: `add_device(id, mac, ...)` never reports a MAC conflict —
it always succeeds — and when `mac` is already bound to a different device
id (whatever its status) the previously bound row is silently deleted by
the `INSERT OR REPLACE`; a fresh row for `id` with `mac` and default status
`active` is present afterwards. -/
theorem add_device_always_replaces (db : IdentityStore)
    (deviceId macAddress : String)
    (certificatePath keyPath deviceType deviceInfo : Option String)
    (now : Int) :
    let out := addDevice db deviceId macAddress certificatePath keyPath
      deviceType deviceInfo now
    out.2 = true ∧
    (∀ r ∈ db.devices, r.macAddress = macAddress → r.deviceId ≠ deviceId →
      r ∉ out.1.devices) ∧
    (∃ r ∈ out.1.devices, r.deviceId = deviceId ∧ r.macAddress = macAddress ∧
      r.status = "active") := by
  refine ⟨rfl, ?_, ?_⟩
  · intro r hr hmac hid hmem
    simp only [addDevice, List.mem_append] at hmem
    rcases hmem with hmem | hmem
    · have := List.of_mem_filter hmem
      simp only [decide_eq_true_eq] at this
      exact this.2 hmac
    · simp only [List.mem_singleton] at hmem
      rw [hmem] at hid
      exact hid rfl
  · simp only [addDevice, List.mem_append, List.mem_singleton]
    exact ⟨_, Or.inr rfl, rfl, rfl, rfl⟩

/-! ## Claims C5 and C9: the pending-admission queue -/

/-- C5 counterexample: a queue holding a single entry in the terminal
status `rejected`.  `mark_onboarded` has no guard on the current status, so
it moves the entry to `onboarded` (and reports success), contradicting the
claim that no queue operation changes a terminal entry's status. -/
theorem pending_terminal_counterexample :
    let db0 : PendingDB :=
      ⟨[⟨"m", "d", 0, "rejected", Option.none, some 3, Option.none,
         Option.none⟩], []⟩
    (markOnboarded db0 "m" 9).1.rows.map PendingRow.status = ["onboarded"] ∧
    (markOnboarded db0 "m" 9).2 = true :=
  ⟨rfl, rfl⟩

/-- C5 amended: `approve_device` and `reject_device` guard on
`status = 'pending'`, so they never change an entry whose status is not
pending (in particular terminal entries), and the only transitions they
perform are pending → approved and pending → rejected; `mark_onboarded`
however updates every row with the given MAC *regardless of its current
status*, so it moves even a terminal `rejected` entry to `onboarded`. -/
theorem pending_queue_transitions (db : PendingDB) (mac : String)
    (notes : Option String) (now : Int) :
    (∀ r ∈ db.rows, r.status ≠ "pending" →
      r ∈ (approveDevice db mac notes now).1.rows) ∧
    (∀ r ∈ db.rows, r.status ≠ "pending" →
      r ∈ (rejectDevice db mac notes now).1.rows) ∧
    (∀ r' ∈ (approveDevice db mac notes now).1.rows,
      r' ∈ db.rows ∨ ∃ r ∈ db.rows, r.status = "pending" ∧ r.macAddress = mac ∧
        r' = { r with
               status := "approved", approvedAt := some now,
               adminNotes := notes }) ∧
    (∀ r' ∈ (rejectDevice db mac notes now).1.rows,
      r' ∈ db.rows ∨ ∃ r ∈ db.rows, r.status = "pending" ∧ r.macAddress = mac ∧
        r' = { r with
               status := "rejected", rejectedAt := some now,
               adminNotes := notes }) ∧
    (∀ r ∈ db.rows, r.macAddress = mac →
      { r with status := "onboarded", onboardedAt := some now }
        ∈ (markOnboarded db mac now).1.rows) ∧
    (∀ r ∈ db.rows, r.macAddress ≠ mac →
      r ∈ (markOnboarded db mac now).1.rows) := by
  refine ⟨?_, ?_, ?_, ?_, ?_, ?_⟩
  · intro r hr hst
    simp only [approveDevice]
    split_ifs with hm
    · exact hr
    · refine List.mem_map.mpr ⟨r, hr, ?_⟩
      rw [if_neg]
      intro hcond
      exact hst hcond.2
  · intro r hr hst
    simp only [rejectDevice]
    split_ifs with hm
    · exact hr
    · refine List.mem_map.mpr ⟨r, hr, ?_⟩
      rw [if_neg]
      intro hcond
      exact hst hcond.2
  · intro r' hr'
    simp only [approveDevice] at hr'
    split_ifs at hr' with hm
    · exact Or.inl hr'
    · obtain ⟨r, hr, hfr⟩ := List.mem_map.mp hr'
      by_cases hcond : r.macAddress = mac ∧ r.status = "pending"
      · rw [if_pos hcond] at hfr
        exact Or.inr ⟨r, hr, hcond.2, hcond.1, hfr.symm⟩
      · rw [if_neg hcond] at hfr
        exact Or.inl (hfr ▸ hr)
  · intro r' hr'
    simp only [rejectDevice] at hr'
    split_ifs at hr' with hm
    · exact Or.inl hr'
    · obtain ⟨r, hr, hfr⟩ := List.mem_map.mp hr'
      by_cases hcond : r.macAddress = mac ∧ r.status = "pending"
      · rw [if_pos hcond] at hfr
        exact Or.inr ⟨r, hr, hcond.2, hcond.1, hfr.symm⟩
      · rw [if_neg hcond] at hfr
        exact Or.inl (hfr ▸ hr)
  · intro r hr hmac
    simp only [markOnboarded]
    refine List.mem_map.mpr ⟨r, hr, ?_⟩
    rw [if_pos hmac]
  · intro r hr hmac
    simp only [markOnboarded]
    refine List.mem_map.mpr ⟨r, hr, ?_⟩
    rw [if_neg hmac]

/-- C9 counterexample: approving a MAC whose queue row is already
`approved` leaves the table untouched but returns `False` (the `UPDATE ...
WHERE status = 'pending'` matches no row), where the claim says the
operation reports success. -/
theorem approve_already_approved_counterexample :
    approveDevice
      ⟨[⟨"m", "d", 0, "approved", some 3, Option.none, Option.none,
         Option.none⟩], []⟩ "m" Option.none 9
    = (⟨[⟨"m", "d", 0, "approved", some 3, Option.none, Option.none,
         Option.none⟩], []⟩, false) := rfl

/-- C9 amended: `approve_device(mac)` on a row that is already approved (or
in any non-pending status) is a no-op on the queue — the database is
returned unchanged — but it reports *failure* (`False`), not success. -/
theorem approve_nonpending_noop (db : PendingDB) (mac : String)
    (notes : Option String) (now : Int)
    (h : ∀ r ∈ db.rows, r.macAddress = mac → r.status ≠ "pending") :
    approveDevice db mac notes now = (db, false) := by
  have hm : (db.rows.filter
      (fun r => r.macAddress = mac ∧ r.status = "pending")).length = 0 := by
    rw [List.length_eq_zero, List.filter_eq_nil_iff]
    intro a ha
    simp only [decide_eq_true_eq, not_and]
    intro hmac
    exact h a ha hmac
  simp only [approveDevice]
  rw [if_pos hm]

/-- Witness for the C9 amended theorem at a concrete already-approved
row. -/
theorem approve_nonpending_noop_witness :
    approveDevice
      ⟨[⟨"mw", "dw", 0, "approved", some 3, Option.none, Option.none,
         Option.none⟩], []⟩ "mw" Option.none 9
    = (⟨[⟨"mw", "dw", 0, "approved", some 3, Option.none, Option.none,
         Option.none⟩], []⟩, false) :=
  approve_nonpending_noop _ "mw" Option.none 9 (by decide)

/-! ## Claim C2: trust-change driven policy adaptation -/

theorem thresholdOf_eq (s : Int) :
    thresholdOf s =
      if s ≥ 70 then some 70 else if s ≥ 50 then some 50
      else if s ≥ 30 then some 30 else none := rfl

theorem thresholdOf_eq_iff_specBucket (a b : Int) :
    (thresholdOf a = thresholdOf b) ↔ (specBucket a = specBucket b) := by
  simp only [thresholdOf_eq, specBucket]
  split_ifs <;> simp_all

/-- C2: when the trust scorer notifies the adapter of a change (so the
stored score for the device is the new score), the adapter applies an
enforcement action exactly when the trust bucket changed or the score moved
by at least 10 points, and the action is the one mandated for the new
score: quarantine below 30, deny in `[30, 50)`, redirect in `[50, 70)`,
allow at `≥ 70`. -/
theorem trust_change_enforcement (scores : List (String × Int))
    (deviceId : String) (oldScore newScore : Int)
    (hcur : alistGet scores deviceId = some newScore) :
    onTrustScoreChange scores deviceId oldScore newScore =
      if specBucket oldScore ≠ specBucket newScore ∨
          10 ≤ (newScore - oldScore).natAbs
      then some (specActionFor newScore) else none := by
  have ha : adaptPolicyForDevice scores deviceId
      = some (specActionFor newScore) := by
    simp only [adaptPolicyForDevice, hcur, specActionFor]
    split_ifs <;> rfl
  have habs : (oldScore - newScore).natAbs = (newScore - oldScore).natAbs := by
    omega
  unfold onTrustScoreChange
  rw [habs]
  by_cases hB : specBucket oldScore = specBucket newScore
  · rw [if_neg (by simp [thresholdOf_eq_iff_specBucket, hB])]
    by_cases hD : 10 ≤ (newScore - oldScore).natAbs
    · rw [if_pos hD, if_pos (Or.inr hD), ha]
    · rw [if_neg hD, if_neg (by simp [hB, hD])]
  · rw [if_pos (by simp [thresholdOf_eq_iff_specBucket, hB]), ha,
      if_pos (Or.inl hB)]

/-- Witness for C2: a drop from 80 (trusted) to 45 (suspicious) triggers an
adaptation and the applied action is `deny`. -/
theorem trust_change_enforcement_witness :
    onTrustScoreChange [("dev", 45)] "dev" 80 45 = some "deny" := by
  rw [trust_change_enforcement [("dev", 45)] "dev" 80 45 rfl]
  decide

/-! ## Claim C1: trust scores stay in [0, 100] -/

theorem clip_bounds (x : Int) : 0 ≤ clip x ∧ clip x ≤ 100 := by
  unfold clip
  omega

theorem saveTrustScoreDB_devices (db : IdentityStore) (deviceId : String)
    (n : Int) (reason : String) :
    ∀ row ∈ (saveTrustScoreDB db deviceId n reason).devices,
      row.deviceId = deviceId → row.trustScore = some n := by
  intro row hrow hid
  simp only [saveTrustScoreDB, List.mem_map] at hrow
  obtain ⟨r0, hr0, hfr⟩ := hrow
  by_cases h0 : r0.deviceId = deviceId
  · rw [if_pos h0] at hfr
    rw [← hfr]
  · rw [if_neg h0] at hfr
    rw [← hfr] at hid
    exact absurd hid h0

theorem historyOf_after_update (s1 : TrustScorer) (deviceId : String)
    (L : List HistEntry) :
    historyOf
      { s1 with
        deviceScores := s1.deviceScores,
        scoreHistory := alistSet s1.scoreHistory deviceId L } deviceId = L := by
  simp only [historyOf, getTrustScore]
  rw [alistGet_set_self]
  rfl

/-- C1: every `adjust_trust_score` / `set_trust_score` update — from any
prior state, for any device and any delta or target value — stores a
clipped score `n ∈ [0, 100]`: the in-memory score, the newest in-memory
history entry, the newest persisted history row, and every matching
`devices` row all carry that same clipped value.  Applied after each step
of a sequence of updates this gives the claimed invariant. -/
theorem trust_score_clipped (s : TrustScorer) (db : IdentityStore)
    (deviceId : String) (u : TrustUpdate) (reason : String) (now : Int) :
    ∃ n : Int, 0 ≤ n ∧ n ≤ 100 ∧
      getTrustScore (applyTrustUpdate s db deviceId u reason now).scorer
        deviceId = some n ∧
      (historyOf (applyTrustUpdate s db deviceId u reason now).scorer
        deviceId).getLast? = some ⟨now, n, reason⟩ ∧
      (applyTrustUpdate s db deviceId u reason now).db.trustHistory.getLast?
        = some (deviceId, n, reason) ∧
      ∀ row ∈ (applyTrustUpdate s db deviceId u reason now).db.devices,
        row.deviceId = deviceId → row.trustScore = some n := by
  refine ⟨(applyTrustUpdate s db deviceId u reason now).newScore,
    ?_, ?_, ?_, ?_, ?_, ?_⟩
  · dsimp only [applyTrustUpdate]
    cases u
    · exact (clip_bounds _).1
    · exact (clip_bounds _).1
  · dsimp only [applyTrustUpdate]
    cases u
    · exact (clip_bounds _).2
    · exact (clip_bounds _).2
  · dsimp only [applyTrustUpdate, getTrustScore]
    exact alistGet_set_self _ _ _
  · dsimp only [applyTrustUpdate, historyOf]
    rw [alistGet_set_self]
    exact suffix_single_getLast (recordScoreChange_suffix_single _ _)
  · dsimp only [applyTrustUpdate, saveTrustScoreDB]
    exact List.getLast?_concat _
  · dsimp only [applyTrustUpdate]
    exact saveTrustScoreDB_devices _ _ _ _

/-! ## Claim C10: updates on an unknown device auto-initialize -/

/-- C10: `adjust_trust_score` / `set_trust_score` on a device with no
in-memory score never fails: the device is first initialized — to the
persisted database score when one exists, otherwise to the default initial
score 70 — with an `"Initialized"` history entry recorded in memory and
persisted, and the requested update is then applied on top of that
initialized score. -/
theorem trust_update_autoinitializes (s : TrustScorer) (db : IdentityStore)
    (deviceId : String) (u : TrustUpdate) (reason : String) (now : Int)
    (hmissing : getTrustScore s deviceId = none)
    (hdefault : s.initialScore = 70) :
    (applyTrustUpdate s db deviceId u reason now).oldScore
      = (getTrustScoreDB db deviceId).getD 70 ∧
    (applyTrustUpdate s db deviceId u reason now).newScore
      = (match u with
         | TrustUpdate.adjust delta =>
           clip ((getTrustScoreDB db deviceId).getD 70 + delta)
         | TrustUpdate.set v => clip v) ∧
    getTrustScore (applyTrustUpdate s db deviceId u reason now).scorer deviceId
      = some (applyTrustUpdate s db deviceId u reason now).newScore ∧
    [⟨now, (getTrustScoreDB db deviceId).getD 70, "Initialized"⟩,
     ⟨now, (applyTrustUpdate s db deviceId u reason now).newScore, reason⟩]
      <:+ historyOf (applyTrustUpdate s db deviceId u reason now).scorer
            deviceId ∧
    (applyTrustUpdate s db deviceId u reason now).db.trustHistory
      = db.trustHistory ++
        [(deviceId, (getTrustScoreDB db deviceId).getD 70, "Initialized"),
         (deviceId,
          (applyTrustUpdate s db deviceId u reason now).newScore, reason)] := by
  have hinit : (match getTrustScoreDB db deviceId with
      | some dbScore => dbScore
      | none => s.initialScore) = (getTrustScoreDB db deviceId).getD 70 := by
    cases getTrustScoreDB db deviceId <;> simp [hdefault]
  have hif : (if (getTrustScore s deviceId).isSome = true then (s, db)
      else initializeDevice s db deviceId now)
      = initializeDevice s db deviceId now := by
    rw [hmissing]
    simp
  refine ⟨?_, ?_, ?_, ?_, ?_⟩
  · dsimp only [applyTrustUpdate]
    rw [hif]
    dsimp only [initializeDevice, getTrustScore]
    simp only [alistGet_set_self, Option.getD_some, hinit]
  · dsimp only [applyTrustUpdate]
    rw [hif]
    dsimp only [initializeDevice, getTrustScore]
    simp only [alistGet_set_self, Option.getD_some, hinit]
  · dsimp only [applyTrustUpdate, getTrustScore]
    exact alistGet_set_self _ _ _
  · dsimp only [applyTrustUpdate]
    rw [hif]
    dsimp only [initializeDevice, historyOf, getTrustScore]
    simp only [alistGet_set_self, Option.getD_some, hinit]
    exact recordScoreChange_suffix_pair _ _ _
      (recordScoreChange_suffix_single _ _)
  · dsimp only [applyTrustUpdate]
    rw [hif]
    dsimp only [initializeDevice, saveTrustScoreDB, getTrustScore]
    simp only [alistGet_set_self, Option.getD_some, hinit]
    simp [List.append_assoc]

/-- Witness for C10: an adjustment of −15 on an unseen device (empty
scorer, empty database) initializes to 70 and lands on 55. -/
theorem trust_update_autoinitializes_witness :
    getTrustScore (⟨70, [], []⟩ : TrustScorer) "d" = none ∧
    (applyTrustUpdate ⟨70, [], []⟩ ⟨[], []⟩ "d" (TrustUpdate.adjust (-15))
      "alert" 5).newScore = 55 := by
  refine ⟨rfl, ?_⟩
  have h := trust_update_autoinitializes ⟨70, [], []⟩ ⟨[], []⟩ "d"
    (TrustUpdate.adjust (-15)) "alert" 5 rfl rfl
  rw [h.2.1]
  decide

/-! ## Claim C6: session authentication -/

/-- C6: for a token store produced by `get_token` (every record keyed by a
nonempty device id and holding a nonempty token), `/auth` succeeds iff a
record exists for the device, the presented token equals the last issued
token, and `now - last_activity ≤ TTL` (300 s); on success `last_activity`
is refreshed to `now`; a matching token presented past the TTL is rejected
and its record removed. -/
theorem session_auth (st : List (String × TokenRecord))
    (deviceId token : String) (now : Int) (hwf : WFTokens st) :
    ((authenticate st deviceId token now).2 = true ↔
      ∃ t, alistGet st deviceId = some t ∧ t.token = token ∧
        now - t.lastActivity ≤ SESSION_TIMEOUT) ∧
    ((authenticate st deviceId token now).2 = true →
      alistGet (authenticate st deviceId token now).1 deviceId
        = some ⟨token, now⟩) ∧
    (∀ t, alistGet st deviceId = some t → t.token = token →
      now - t.lastActivity > SESSION_TIMEOUT →
      (authenticate st deviceId token now).2 = false ∧
      alistGet (authenticate st deviceId token now).1 deviceId
        = Option.none) := by
  have hdev : deviceId = "" → alistGet st deviceId = none := by
    intro h1
    cases hf : alistGet st deviceId with
    | none => rfl
    | some t =>
      have hm := alistGet_mem hf
      have := (hwf _ hm).1
      simp [h1] at this
  have htokwf : token = "" → ∀ t, alistGet st deviceId = some t →
      t.token ≠ token := by
    intro h2 t hf
    have hm := alistGet_mem hf
    have := (hwf _ hm).2
    rw [h2]
    exact this
  by_cases hempty : deviceId = "" ∨ token = ""
  · have hres : authenticate st deviceId token now = (st, false) := by
      unfold authenticate
      rw [if_pos hempty]
    rw [hres]
    refine ⟨?_, ?_, ?_⟩
    · constructor
      · intro h
        exact absurd h Bool.false_ne_true
      · rintro ⟨t, hf, htk, _⟩
        rcases hempty with h1 | h2
        · rw [hdev h1] at hf
          exact absurd hf (by simp)
        · exact absurd htk (htokwf h2 t hf)
    · intro h
      exact absurd h Bool.false_ne_true
    · intro t hf htk _
      rcases hempty with h1 | h2
      · rw [hdev h1] at hf
        exact absurd hf (by simp)
      · exact absurd htk (htokwf h2 t hf)
  · cases hf : alistGet st deviceId with
    | none =>
      have hres : authenticate st deviceId token now = (st, false) := by
        unfold authenticate
        rw [if_neg hempty, hf]
      rw [hres]
      refine ⟨?_, ?_, ?_⟩
      · constructor
        · intro h
          exact absurd h Bool.false_ne_true
        · rintro ⟨t, hft, _, _⟩
          exact absurd hft (by simp)
      · intro h
        exact absurd h Bool.false_ne_true
      · intro t hft
        exact absurd hft (by simp)
    | some record =>
      by_cases htk : record.token = token
      · by_cases hexp : now - record.lastActivity > SESSION_TIMEOUT
        · have hres : authenticate st deviceId token now
              = (alistErase st deviceId, false) := by
            unfold authenticate
            rw [if_neg hempty, hf]
            dsimp only
            rw [if_neg (not_not_intro htk), if_pos hexp]
          rw [hres]
          refine ⟨?_, ?_, ?_⟩
          · constructor
            · intro h
              exact absurd h Bool.false_ne_true
            · rintro ⟨t, hft, _, hfresh⟩
              have heq : record = t := Option.some.inj hft
              rw [← heq] at hfresh
              exact absurd hfresh (not_le.mpr hexp)
          · intro h
            exact absurd h Bool.false_ne_true
          · intro t _ _ _
            exact ⟨rfl, alistGet_erase_self st deviceId⟩
        · have hres : authenticate st deviceId token now
              = (alistSet st deviceId ⟨record.token, now⟩, true) := by
            unfold authenticate
            rw [if_neg hempty, hf]
            dsimp only
            rw [if_neg (not_not_intro htk), if_neg hexp]
          rw [hres]
          refine ⟨?_, ?_, ?_⟩
          · constructor
            · intro _
              exact ⟨record, rfl, htk, not_lt.mp hexp⟩
            · intro _
              rfl
          · intro _
            rw [htk]
            exact alistGet_set_self _ _ _
          · intro t hft _ hexp2
            have heq : record = t := Option.some.inj hft
            rw [← heq] at hexp2
            exact absurd hexp2 hexp
      · have hres : authenticate st deviceId token now = (st, false) := by
          unfold authenticate
          rw [if_neg hempty, hf]
          dsimp only
          rw [if_pos htk]
        rw [hres]
        refine ⟨?_, ?_, ?_⟩
        · constructor
          · intro h
            exact absurd h Bool.false_ne_true
          · rintro ⟨t, hft, htk2, _⟩
            have heq : record = t := Option.some.inj hft
            exact absurd (heq ▸ htk2) htk
        · intro h
          exact absurd h Bool.false_ne_true
        · intro t hft htk2 _
          have heq : record = t := Option.some.inj hft
          exact absurd (heq ▸ htk2) htk

/-- Witness for C6: a fresh record authenticates successfully. -/
theorem session_auth_witness :
    WFTokens [("d", ⟨"tok", 0⟩)] ∧
    (authenticate [("d", ⟨"tok", 0⟩)] "d" "tok" 100).2 = true :=
  ⟨by unfold WFTokens; decide, by
    have h := session_auth [("d", ⟨"tok", 0⟩)] "d" "tok" 100
      (by unfold WFTokens; decide)
    exact h.1.mpr ⟨⟨"tok", 0⟩, rfl, rfl, by decide⟩⟩

/-! ## Claim C7: orchestrator threat-level fusion -/

/-- C7 counterexample: with a threat record of severity `low` and exactly
one recent medium-severity alert, the claim (threat level = max of the
record severity and a bump-up that is at least `medium` when a medium alert
is present) forces a level of at least `medium`; the code leaves the level
at `low`, because its single-medium branch only bumps a `none` level. -/
theorem threat_level_counterexample :
    assessThreatLevel (some (some "low")) ["medium"] = "low" ∧
    ¬ threatRank "medium" ≤
        threatRank (assessThreatLevel (some (some "low")) ["medium"]) := by
  decide

/-- C7 amended: the computed threat level is: `critical` whenever at least
one high-severity recent alert exists; otherwise `max(base, high)` when at
least two medium alerts exist; otherwise, with exactly one medium alert,
`medium` only when the base level is `none` (a `low` base is *not* raised);
otherwise the base level — where the base level is the threat record's
severity (`high`/`medium`/`low`, and `none` for an absent record or an
unrecognized severity).  The level never drops below the base level. -/
theorem threat_level_characterization (ti : Option (Option String))
    (alerts : List String) :
    (assessThreatLevel ti alerts =
      if 0 < (alerts.filter (fun a => a = "high")).length then "critical"
      else if 2 ≤ (alerts.filter (fun a => a = "medium")).length then
        maxLevel (tiBaseLevel ti) "high"
      else if 0 < (alerts.filter (fun a => a = "medium")).length then
        (if tiBaseLevel ti = "none" then "medium" else tiBaseLevel ti)
      else tiBaseLevel ti) ∧
    threatRank (tiBaseLevel ti) ≤ threatRank (assessThreatLevel ti alerts) := by
  have hbase : tiBaseLevel ti = "none" ∨ tiBaseLevel ti = "low" ∨
      tiBaseLevel ti = "medium" ∨ tiBaseLevel ti = "high" := by
    unfold tiBaseLevel
    cases ti with
    | none => tauto
    | some sevField =>
      dsimp only
      split_ifs <;> tauto
  by_cases hnil : alerts = []
  · subst hnil
    constructor
    · simp [assessThreatLevel]
    · simp [assessThreatLevel]
  · have hcond : alerts.length ≠ 0 := by
      simpa [List.length_eq_zero] using hnil
    constructor
    · simp only [assessThreatLevel]
      rw [if_pos hcond]
      rcases hbase with h | h | h | h <;> rw [h] <;>
        split_ifs <;> simp_all [maxLevel, threatRank]
    · simp only [assessThreatLevel]
      rw [if_pos hcond]
      rcases hbase with h | h | h | h <;> rw [h] <;>
        split_ifs <;> simp_all [threatRank]

/-! ## Claim C8: anomaly-type selection -/

/-- C8 counterexample: with a baseline, a detection whose only matched
signal is the byte-rate signal (type `volume_attack`) is reported with
`anomaly_type = "dos"`, not with the volume type that the claimed
precedence `dos > volume > scanning > port_scanning > anomaly` selects. -/
theorem anomaly_type_counterexample :
    (detectWithBaseline ⟨some 1, some 1, [], []⟩
      ⟨some 1, some 20, some 0, some 0⟩).anomalies.map AnomalySignal.type
      = ["volume_attack"] ∧
    (detectWithBaseline ⟨some 1, some 1, [], []⟩
      ⟨some 1, some 20, some 0, some 0⟩).anomalyType = some "dos" ∧
    highestPrecType ["volume_attack"] = some "volume_attack" ∧
    (some "dos" : Option String) ≠ some "volume_attack" := by
  have hpps : ppsSignalB ⟨some 1, some 1, [], []⟩
      ⟨some 1, some 20, some 0, some 0⟩ = Option.none := by
    simp only [ppsSignalB]
    norm_num
  have hbps : bpsSignalB ⟨some 1, some 1, [], []⟩
      ⟨some 1, some 20, some 0, some 0⟩
      = some (⟨"volume_attack", "high"⟩, 40) := by
    simp only [bpsSignalB]
    norm_num
  have hdest : destSignalB ⟨some 1, some 1, [], []⟩
      ⟨some 1, some 20, some 0, some 0⟩ = Option.none := by
    simp only [destSignalB]
    norm_num
  have hport : portSignalB ⟨some 1, some 1, [], []⟩
      ⟨some 1, some 20, some 0, some 0⟩ = Option.none := by
    simp only [portSignalB]
    norm_num
  refine ⟨?_, ?_, by simp [highestPrecType], by decide⟩ <;>
    simp [detectWithBaseline, hpps, hbps, hdest, hport]

/-- C8 amended: in the with-baseline path the emitted `anomaly_type`
collapses the matched types — `dos` when any dos or volume_attack signal
matched, `scanning` when otherwise any scanning or port_scanning signal
matched, and `None` otherwise (the `anomaly` fallback is unreachable);
only the no-baseline path reports the first matched signal's type, which
is the highest-precedence matched type under the claimed precedence. -/
theorem ppsSignalB_type (b : Baseline) (s : FlowStats) :
    ∀ x, ppsSignalB b s = some x → x.1.type = "dos" := by
  intro x
  simp only [ppsSignalB]
  split_ifs <;> intro h
  all_goals try exact h.elim
  all_goals injection h with h
  all_goals subst h
  all_goals rfl

theorem bpsSignalB_type (b : Baseline) (s : FlowStats) :
    ∀ x, bpsSignalB b s = some x → x.1.type = "volume_attack" := by
  intro x
  simp only [bpsSignalB]
  split_ifs <;> intro h
  all_goals try exact h.elim
  all_goals injection h with h
  all_goals subst h
  all_goals rfl

theorem destSignalB_type (b : Baseline) (s : FlowStats) :
    ∀ x, destSignalB b s = some x → x.1.type = "scanning" := by
  intro x
  simp only [destSignalB]
  split_ifs <;> intro h
  all_goals try exact h.elim
  all_goals injection h with h
  all_goals subst h
  all_goals rfl

theorem portSignalB_type (b : Baseline) (s : FlowStats) :
    ∀ x, portSignalB b s = some x → x.1.type = "port_scanning" := by
  intro x
  simp only [portSignalB]
  split_ifs <;> intro h
  all_goals try exact h.elim
  all_goals injection h with h
  all_goals subst h
  all_goals rfl

theorem ppsSignalA_type (s : FlowStats) :
    ∀ x, ppsSignalA s = some x → x.1.type = "dos" := by
  intro x
  simp only [ppsSignalA]
  split_ifs <;> intro h
  all_goals try exact h.elim
  all_goals injection h with h
  all_goals subst h
  all_goals rfl

theorem bpsSignalA_type (s : FlowStats) :
    ∀ x, bpsSignalA s = some x → x.1.type = "volume_attack" := by
  intro x
  simp only [bpsSignalA]
  split_ifs <;> intro h
  all_goals try exact h.elim
  all_goals injection h with h
  all_goals subst h
  all_goals rfl

theorem destSignalA_type (s : FlowStats) :
    ∀ x, destSignalA s = some x → x.1.type = "scanning" := by
  intro x
  simp only [destSignalA]
  split_ifs <;> intro h
  all_goals try exact h.elim
  all_goals injection h with h
  all_goals subst h
  all_goals rfl

theorem portSignalA_type (s : FlowStats) :
    ∀ x, portSignalA s = some x → x.1.type = "port_scanning" := by
  intro x
  simp only [portSignalA]
  split_ifs <;> intro h
  all_goals try exact h.elim
  all_goals injection h with h
  all_goals subst h
  all_goals rfl

theorem collapse_of_four (o1 o2 o3 o4 : Option (AnomalySignal × Int))
    (h1 : ∀ x, o1 = some x → x.1.type = "dos")
    (h2 : ∀ x, o2 = some x → x.1.type = "volume_attack")
    (h3 : ∀ x, o3 = some x → x.1.type = "scanning")
    (h4 : ∀ x, o4 = some x → x.1.type = "port_scanning") :
    (if (([o1, o2, o3, o4].filterMap id).map Prod.fst).length ≠ 0 then
      if "dos" ∈ (([o1, o2, o3, o4].filterMap id).map Prod.fst).map
            AnomalySignal.type ∨
          "volume_attack" ∈ (([o1, o2, o3, o4].filterMap id).map
            Prod.fst).map AnomalySignal.type then some "dos"
      else if "scanning" ∈ (([o1, o2, o3, o4].filterMap id).map
            Prod.fst).map AnomalySignal.type ∨
          "port_scanning" ∈ (([o1, o2, o3, o4].filterMap id).map
            Prod.fst).map AnomalySignal.type then some "scanning"
      else some "anomaly"
     else Option.none)
    = (if "dos" ∈ (([o1, o2, o3, o4].filterMap id).map Prod.fst).map
            AnomalySignal.type ∨
          "volume_attack" ∈ (([o1, o2, o3, o4].filterMap id).map
            Prod.fst).map AnomalySignal.type then some "dos"
      else if "scanning" ∈ (([o1, o2, o3, o4].filterMap id).map
            Prod.fst).map AnomalySignal.type ∨
          "port_scanning" ∈ (([o1, o2, o3, o4].filterMap id).map
            Prod.fst).map AnomalySignal.type then some "scanning"
      else Option.none) := by
  cases ho1 : o1 <;> cases ho2 : o2 <;> cases ho3 : o3 <;> cases ho4 : o4 <;>
    simp_all

theorem first_of_four (o1 o2 o3 o4 : Option (AnomalySignal × Int))
    (h1 : ∀ x, o1 = some x → x.1.type = "dos")
    (h2 : ∀ x, o2 = some x → x.1.type = "volume_attack")
    (h3 : ∀ x, o3 = some x → x.1.type = "scanning")
    (h4 : ∀ x, o4 = some x → x.1.type = "port_scanning") :
    ((([o1, o2, o3, o4].filterMap id).map Prod.fst).head?).map
        AnomalySignal.type
      = highestPrecType ((([o1, o2, o3, o4].filterMap id).map Prod.fst).map
          AnomalySignal.type) := by
  cases ho1 : o1 <;> cases ho2 : o2 <;> cases ho3 : o3 <;> cases ho4 : o4 <;>
    simp_all [highestPrecType]

/-- C8 amended: in the with-baseline path the emitted `anomaly_type`
collapses the matched types — `dos` when any dos or volume_attack signal
matched, `scanning` when otherwise any scanning or port_scanning signal
matched, and `None` otherwise (the `anomaly` fallback is unreachable);
only the no-baseline path reports the first matched signal's type, which
is the highest-precedence matched type under the claimed precedence. -/
theorem anomaly_type_characterization (b : Baseline) (s : FlowStats) :
    ((detectWithBaseline b s).anomalyType =
      if "dos" ∈ (detectWithBaseline b s).anomalies.map AnomalySignal.type ∨
          "volume_attack" ∈ (detectWithBaseline b s).anomalies.map
            AnomalySignal.type then some "dos"
      else if "scanning" ∈ (detectWithBaseline b s).anomalies.map
            AnomalySignal.type ∨
          "port_scanning" ∈ (detectWithBaseline b s).anomalies.map
            AnomalySignal.type then some "scanning"
      else Option.none) ∧
    ((detectWithoutBaseline s).anomalyType =
      highestPrecType
        ((detectWithoutBaseline s).anomalies.map AnomalySignal.type)) := by
  constructor
  · exact collapse_of_four _ _ _ _ (ppsSignalB_type b s) (bpsSignalB_type b s)
      (destSignalB_type b s) (portSignalB_type b s)
  · exact first_of_four _ _ _ _ (ppsSignalA_type s) (bpsSignalA_type s)
      (destSignalA_type s) (portSignalA_type s)

end SDN
